import Mathlib

/-!
Shallow embedding of the JingOS-team/solid backend adapters:

* `UDisks2.StorageAccess` — the storage setup/teardown adapter
  (`udisksstorageaccess.cpp`, given as `src/unnamed/part_000`);
* `UPower.UPowerDevice` — the power-device adapter
  (`src/src/solid/devices/backends/upower/upowerdevice.cpp`).

The external world (remote D-Bus properties and the success of remote
calls) is modelled by explicit environment structures; the mutable adapter member fields become explicit state records.  Outgoing signal
emissions and D-Bus method calls are collected in lists so that theorems
can speak about "no event emitted" and "which calls were issued".
QString is modelled by Lean `String` (the mount points passed through
`QFile::decodeName` are ASCII object paths, for which decoding is the
identity and QString length agrees with `String.length`).
-/

namespace UDisks2

/-- Error codes of the `Solid::ErrorType` taxonomy that this file needs.
`userCanceled` is `Solid::UserCanceled`; every other code is collapsed
into `other` since no modelled code path produces it. -/
inductive SolidError where
  | userCanceled
  | other (code : Nat)
deriving DecidableEq, Repr

/-- Signals/broadcasts emitted by the `StorageAccess` adapter:
`broadcastActionRequested`, `broadcastActionDone` (with the optional
error; `none` is a success reply) and the `accessibilityChanged`
Qt signal. -/
inductive Event where
  | actionRequested (name : String)
  | actionDone (name : String) (err : Option SolidError)
  | accessibilityChanged (value : Bool) (udi : String)
deriving DecidableEq, Repr

/-- Outgoing D-Bus method calls issued by the adapter, identified by the
method and its target object path (message options are elided: no claim
mentions them and they do not influence control flow). -/
inductive DBusCall where
  | mount (path : String)
  | unmount (path : String)
  | showPassphraseDialog (udi : String)
  | unlock (udi : String)
  | lock (path : String)
  | eject (drivePath : String)
  | powerOff (drivePath : String)
deriving DecidableEq, Repr

/-- The remote world seen by one `StorageAccess` instance: the remote properties of the device
itself, the result of the (blocking) cleartext-sibling
scan `clearTextPath()`, the mount state used by `isAccessible`, the
`MountPoints` property lists and the immediate success/failure of the
remote calls the adapter issues. -/
structure Env where
  /-- `m_device->udi()` -/
  udi : String
  /-- `m_device->isEncryptedContainer()` -/
  isEncryptedContainer : Bool
  /-- result of the `clearTextPath()` sibling scan (`""` when none found) -/
  clearTextPath : String
  /-- `m_device->isMounted()` -/
  deviceMounted : Bool
  /-- `Device(clearTextPath).isMounted()` for the cleartext holder -/
  holderMounted : Bool
  /-- decoded `MountPoints` property of the device itself -/
  mountPoints : List String
  /-- decoded `MountPoints` property of the cleartext holder device -/
  holderMountPoints : List String
  /-- return value of `callWithCallback` for the Mount message -/
  mountCallOk : Bool
  /-- return value of `callWithCallback` for the Unmount message -/
  unmountCallOk : Bool
  /-- `reply.isValid()` of the `showPassphraseDialog` session-bus call -/
  promptOk : Bool
deriving DecidableEq, Repr

/-- The mutable member fields of `StorageAccess`:
`m_setupInProgress`, `m_teardownInProgress`, `m_passphraseRequested`
and the cached accessibility value `m_isAccessible`. -/
structure AdapterState where
  setupInProgress : Bool
  teardownInProgress : Bool
  passphraseRequested : Bool
  isAccessibleCache : Bool
deriving DecidableEq, Repr

/-- Result of one adapter entry point: the C++ return value, the state
after the call, the emitted events and the issued D-Bus calls, in order. -/
structure StepResult where
  ret : Bool
  state : AdapterState
  events : List Event
  calls : List DBusCall
deriving DecidableEq, Repr

/-- `StorageAccess::isLuksDevice`. -/
def isLuksDevice (env : Env) : Bool :=
  env.isEncryptedContainer

/-- `StorageAccess::isAccessible`: for an encrypted container the mount
state is read through the cleartext holder (empty or `"/"` cleartext
path means not accessible), otherwise through the device itself. -/
def isAccessible (env : Env) : Bool :=
  if isLuksDevice env then
    let path := env.clearTextPath
    if path.isEmpty || path == "/" then false
    else env.holderMounted
  else
    env.deviceMounted

/-- The file-static `get_shortest` helper: starting from the first mount
point, each later one replaces the running candidate only when it is
strictly shorter.  Empty input yields the null `QString`, i.e. `""`. -/
def get_shortest (mntPoints : List String) : String :=
  match mntPoints with
  | [] => ""
  | first :: rest =>
    rest.foldl (fun shortest current =>
      if shortest.length > current.length then current else shortest) first

/-- `StorageAccess::filePath`: for an unlocked encrypted device the
mount points of the cleartext holder are consulted (empty/`"/"`
cleartext path short-circuits to `""`); otherwise the mount points of the
device itself are used. -/
def filePath (env : Env) : String :=
  if isLuksDevice env then
    let path := env.clearTextPath
    if path.isEmpty || path == "/" then ""
    else get_shortest env.holderMountPoints
  else
    get_shortest env.mountPoints

/-- The object path targeted by `StorageAccess::mount` and
`StorageAccess::unmount`: the device udi, replaced by the cleartext
path when the device is a LUKS container with a non-empty cleartext
sibling. -/
def mountCallPath (env : Env) : String :=
  if isLuksDevice env && !env.clearTextPath.isEmpty then env.clearTextPath
  else env.udi

/-- `StorageAccess::mount`: sends the Mount message and returns the
accept/reject answer of the transport; no member field is touched. -/
def mount (env : Env) (s : AdapterState) : StepResult :=
  { ret := env.mountCallOk
    state := s
    events := []
    calls := [DBusCall.mount (mountCallPath env)] }

/-- `StorageAccess::unmount`: sends the Unmount message (with the
extended timeout) and returns the answer of the transport. -/
def unmount (env : Env) (s : AdapterState) : StepResult :=
  { ret := env.unmountCallOk
    state := s
    events := []
    calls := [DBusCall.unmount (mountCallPath env)] }

/-- `StorageAccess::requestPassphrase`: registers the return object,
calls `showPassphraseDialog` on the session bus and records whether the
call was accepted in `m_passphraseRequested`, which is also the return
value. -/
def requestPassphrase (env : Env) (s : AdapterState) : StepResult :=
  { ret := env.promptOk
    state := { s with passphraseRequested := env.promptOk }
    events := []
    calls := [DBusCall.showPassphraseDialog env.udi] }

/-- `StorageAccess::setup`: rejected immediately when either in-progress
flag is set; otherwise sets `m_setupInProgress`, broadcasts the request
and either asks for a passphrase (encrypted container with no cleartext
sibling) or mounts directly. -/
def setup (env : Env) (s : AdapterState) : StepResult :=
  if s.teardownInProgress || s.setupInProgress then
    { ret := false, state := s, events := [], calls := [] }
  else
    let s1 : AdapterState := { s with setupInProgress := true }
    let r :=
      if env.isEncryptedContainer && env.clearTextPath.isEmpty then
        requestPassphrase env s1
      else
        mount env s1
    { r with events := Event.actionRequested "setup" :: r.events }

/-- `StorageAccess::teardown`: rejected immediately when either
in-progress flag is set; otherwise sets `m_teardownInProgress`,
broadcasts the request and unmounts. -/
def teardown (env : Env) (s : AdapterState) : StepResult :=
  if s.teardownInProgress || s.setupInProgress then
    { ret := false, state := s, events := [], calls := [] }
  else
    let s1 : AdapterState := { s with teardownInProgress := true }
    let r := unmount env s1
    { r with events := Event.actionRequested "teardown" :: r.events }

/-- `StorageAccess::updateCache`: recompute the cached accessibility. -/
def updateCache (env : Env) (s : AdapterState) : AdapterState :=
  { s with isAccessibleCache := isAccessible env }

/-- `StorageAccess::checkAccessibility`: recompute the cache and emit
`accessibilityChanged` exactly when the value moved. -/
def checkAccessibility (env : Env) (s : AdapterState) :
    AdapterState × List Event :=
  let old := s.isAccessibleCache
  let s1 := updateCache env s
  if old != s1.isAccessibleCache then
    (s1, [Event.accessibilityChanged s1.isAccessibleCache env.udi])
  else
    (s1, [])

/-- One `checkAccessibility` per device-change notification, folded over
a list of observed environments (the slot is connected to the `changed()` signal
of the device). -/
def runNotifications (envs : List Env) (s : AdapterState) :
    AdapterState × List Event :=
  match envs with
  | [] => (s, [])
  | e :: rest =>
    let r1 := checkAccessibility e s
    let r2 := runNotifications rest r1.1
    (r2.1, r1.2 ++ r2.2)

/-- `StorageAccess::passphraseReply`: ignored unless a passphrase was
requested; a non-empty passphrase triggers the Unlock call, an empty
one clears the setup flag and reports `Solid::UserCanceled`. -/
def passphraseReply (env : Env) (s : AdapterState) (passphrase : String) :
    AdapterState × List Event × List DBusCall :=
  if s.passphraseRequested then
    let s1 : AdapterState := { s with passphraseRequested := false }
    if !passphrase.isEmpty then
      (s1, [], [DBusCall.unlock env.udi])
    else
      ({ s1 with setupInProgress := false },
        [Event.actionDone "setup" (some SolidError.userCanceled)], [])
  else
    (s, [], [])

/-- The parent-drive guard of the eject/power-off branch in
`StorageAccess::slotDBusReply`:
`if (!drivePath.isEmpty() || drivePath != "/")`. -/
def driveGuard (drivePath : String) : Bool :=
  !drivePath.isEmpty || drivePath != "/"

/-!  Specification-side definitions, written from the words of the spec, to
be compared with the source-derived ones above.  -/

/-- Spec-side path selection: "choose the length-shortest path string,
ties broken by first-seen order", as a structural recursion that keeps
the earlier element on equal lengths. -/
def shortestFirstSpec : List String → String
  | [] => ""
  | [a] => a
  | a :: b :: rest =>
    let r := shortestFirstSpec (b :: rest)
    if a.length ≤ r.length then a else r

/-- Spec-side edge-triggered event trace: given the cached accessibility
and the sequence of (recomputed accessibility, udi) observations, emit
one `accessibilityChanged` per actual transition. -/
def accessibilityEvents (cache : Bool) (obs : List (Bool × String)) :
    List Event :=
  match obs with
  | [] => []
  | (v, u) :: rest =>
    (if cache != v then [Event.accessibilityChanged v u] else []) ++
      accessibilityEvents v rest

/-- A baseline environment used for concrete evaluations: a plain
unencrypted mounted device. -/
def baseEnv : Env :=
  { udi := "/org/freedesktop/UDisks2/block_devices/sdb1"
    isEncryptedContainer := false
    clearTextPath := ""
    deviceMounted := true
    holderMounted := false
    mountPoints := ["/run/media/user/disk"]
    holderMountPoints := []
    mountCallOk := true
    unmountCallOk := true
    promptOk := true }

/-- The freshly constructed adapter state with nothing in progress. -/
def idleState : AdapterState :=
  { setupInProgress := false
    teardownInProgress := false
    passphraseRequested := false
    isAccessibleCache := false }

/-- An encrypted container with no discoverable cleartext sibling. -/
def cryptEnv : Env :=
  { baseEnv with
      isEncryptedContainer := true
      clearTextPath := "" }

/-- Same as `cryptEnv` but the passphrase-prompt service call fails. -/
def cryptNoPromptEnv : Env :=
  { cryptEnv with promptOk := false }

/-- An encrypted container whose cleartext sibling exists but reports
no mount point. -/
def cryptUnlockedEnv : Env :=
  { baseEnv with
      isEncryptedContainer := true
      clearTextPath := "/org/freedesktop/UDisks2/block_devices/dm_0"
      holderMountPoints := [] }

/-- A plain device reporting the two mount points named by the spec. -/
def twoMountEnv : Env :=
  { baseEnv with mountPoints := ["/media/foo/bar", "/run/media/foo"] }

/-- A plain device reporting no mount point. -/
def noMountEnv : Env :=
  { baseEnv with mountPoints := [] }

end UDisks2

namespace UPower

/-- A D-Bus variant payload; the claims only depend on the identity of
values, so a few representative constructors suffice. -/
inductive UVal where
  | s (v : String)
  | n (v : Nat)
  | b (v : Bool)
deriving DecidableEq, Repr

/-- A `QVariant`: `none` is the invalid/null `QVariant()`. -/
abbrev QVar := Option UVal

/-- The `m_cache` member of `UPowerDevice`, a `QVariantMap` keyed by
property name (insertion happens only for absent keys, so an
association list in insertion order is a faithful model). -/
structure UPowerState where
  cache : List (String × QVar)
deriving DecidableEq, Repr

/-- Signals emitted by `UPowerDevice`. -/
inductive UEvent where
  | changed
deriving DecidableEq, Repr

/-- Outgoing D-Bus calls issued by `UPowerDevice`. -/
inductive UCall where
  | refresh
  | getAll
  | getProperty (key : String)
deriving DecidableEq, Repr

/-- The remote world seen by one `UPowerDevice`: the `GetAll` reply (its
validity and value), the per-key `property()` replies (`none` models an
invalid reply) and whether the `Refresh` call is accepted. -/
structure UPowerBus where
  getAllValid : Bool
  getAllValue : List (String × QVar)
  propertyReply : String → QVar
  refreshOk : Bool

/-- Key membership in the cache, `QMap::contains`. -/
def cacheContains (c : List (String × QVar)) (key : String) : Bool :=
  c.any (fun p => p.1 == key)

/-- `QMap::value`: the stored variant, or a default-constructed
(invalid) one when the key is absent. -/
def cacheValue (c : List (String × QVar)) (key : String) : QVar :=
  match c.find? (fun p => p.1 == key) with
  | some p => p.2
  | none => none

/-- `UPowerDevice::allProperties`: a blocking `GetAll`; a valid reply
replaces the whole cache, an invalid one clears it. -/
def allProperties (bus : UPowerBus) : UPowerState :=
  if bus.getAllValid then { cache := bus.getAllValue }
  else { cache := [] }

/-- `UPowerDevice::checkCache`: repopulate an empty cache via `GetAll`,
then, when the key is still absent, fetch it individually and store the
reply — storing the invalid `QVariant()` when the fetch fails. -/
def checkCache (bus : UPowerBus) (s : UPowerState) (key : String) :
    UPowerState :=
  let s1 := if s.cache.isEmpty then allProperties bus else s
  if cacheContains s1.cache key then s1
  else
    match bus.propertyReply key with
    | some v => { cache := s1.cache ++ [(key, some v)] }
    | none => { cache := s1.cache ++ [(key, none)] }

/-- `UPowerDevice::prop`: `checkCache` then `m_cache.value(key)`. -/
def prop (bus : UPowerBus) (s : UPowerState) (key : String) :
    UPowerState × QVar :=
  let s1 := checkCache bus s key
  (s1, cacheValue s1.cache key)

/-- `UPowerDevice::propertyExists`: `checkCache` then
`m_cache.contains(key)`. -/
def propertyExists (bus : UPowerBus) (s : UPowerState) (key : String) :
    UPowerState × Bool :=
  let s1 := checkCache bus s key
  (s1, cacheContains s1.cache key)

/-- `UPowerDevice::slotChanged`: clear the whole cache and emit
`changed()`. -/
def slotChanged (_s : UPowerState) : UPowerState × List UEvent :=
  ({ cache := [] }, [UEvent.changed])

/-- `UPowerDevice::login1Resuming`: on the `PrepareForSleep(false)`
resume notification, issue one `Refresh` call and, exactly when it is
accepted, run `slotChanged`. -/
def login1Resuming (bus : UPowerBus) (s : UPowerState) (active : Bool) :
    UPowerState × List UEvent × List UCall :=
  if !active then
    if bus.refreshOk then
      let r := slotChanged s
      (r.1, r.2, [UCall.refresh])
    else
      (s, [], [UCall.refresh])
  else
    (s, [], [])

/-- The values `UPowerDevice::queryDeviceInterface` reads through
`prop`: the `Type` property as a machine uint (`toUInt()` of an invalid
variant is `0`) and the `NativePath` string. -/
structure UPowerDeviceProps where
  typeProp : Nat
  nativePath : String
deriving DecidableEq, Repr

/-- The `UpDeviceKind` enumeration of `upower.h`, in declaration
order. -/
inductive UpDeviceKind where
  | unknown
  | linePower
  | battery
  | ups
  | monitor
  | mouse
  | keyboard
  | pda
  | phone
  | mediaPlayer
  | tablet
  | computer
  | gamingInput
  | last
deriving DecidableEq, Repr

/-- The integer value of each `UpDeviceKind` enumerator. -/
def UpDeviceKind.toNat : UpDeviceKind → Nat
  | .unknown => 0
  | .linePower => 1
  | .battery => 2
  | .ups => 3
  | .monitor => 4
  | .mouse => 5
  | .keyboard => 6
  | .pda => 7
  | .phone => 8
  | .mediaPlayer => 9
  | .tablet => 10
  | .computer => 11
  | .gamingInput => 12
  | .last => 13

/-- The interface types `createDeviceInterface` can be asked about;
every type other than the two handled ones takes the `default` branch,
collapsed into `otherType`. -/
inductive IfaceType where
  | genericInterface
  | battery
  | otherType
deriving DecidableEq, Repr

/-- `UPowerDevice::queryDeviceInterface`: the battery capability is
decided by the `Type` uint; the `UNKNOWN` kind falls back to a
`NativePath` prefix test against the Bluez object-path namespace, and a
uint outside the enumeration falls through to the outer `default`. -/
def queryDeviceInterface (d : UPowerDeviceProps) (t : IfaceType) : Bool :=
  match t with
  | .genericInterface => true
  | .battery =>
    match d.typeProp with
    | 2 | 3 | 5 | 6 | 7 | 8 | 12 => true
    | 0 => d.nativePath.startsWith "/org/bluez/"
    | _ => false
  | .otherType => false

/-- The battery-capability answer the spec assigns to each device kind. -/
def batterySpecAnswer (k : UpDeviceKind) (nativePath : String) : Bool :=
  match k with
  | .battery | .ups | .mouse | .keyboard | .pda | .phone | .gamingInput =>
    true
  | .unknown => nativePath.startsWith "/org/bluez/"
  | .linePower | .monitor | .mediaPlayer | .tablet | .computer | .last =>
    false

/-- A concrete bus whose calls all succeed. -/
def busOk : UPowerBus :=
  { getAllValid := true
    getAllValue := [("Type", some (UVal.n 2))]
    propertyReply := fun _ => none
    refreshOk := true }

/-- Same as `busOk` but the `Refresh` call is rejected. -/
def busNoRefresh : UPowerBus :=
  { busOk with refreshOk := false }

end UPower

namespace UDisks2

theorem shortestFirstSpec_cons_len_le (a : String) (l : List String) :
    (shortestFirstSpec (a :: l)).length ≤ a.length := by
  cases l with
  | nil => simp [shortestFirstSpec]
  | cons b t =>
    simp only [shortestFirstSpec]
    split
    · exact Nat.le_refl _
    · next h => omega

theorem shortestFirstSpec_min (l : List String) :
    ∀ x ∈ l, (shortestFirstSpec l).length ≤ x.length := by
  induction l with
  | nil => intro x hx; cases hx
  | cons a t ih =>
    intro x hx
    cases t with
    | nil =>
      rcases List.mem_cons.mp hx with rfl | hx'
      · simp [shortestFirstSpec]
      · cases hx'
    | cons b t' =>
      have hspec : shortestFirstSpec (a :: b :: t') =
          if a.length ≤ (shortestFirstSpec (b :: t')).length then a
          else shortestFirstSpec (b :: t') := by
        simp [shortestFirstSpec]
      rw [hspec]
      rcases List.mem_cons.mp hx with rfl | hx'
      · split
        · exact Nat.le_refl _
        · next h => omega
      · have hmin := ih x hx'
        split
        · next h => exact Nat.le_trans h hmin
        · exact hmin

theorem foldl_shortest_eq (l : List String) :
    ∀ acc : String,
      List.foldl (fun shortest current =>
        if shortest.length > current.length then current else shortest) acc l =
      shortestFirstSpec (acc :: l) := by
  induction l with
  | nil => intro acc; simp [shortestFirstSpec]
  | cons b t ih =>
    intro acc
    rw [List.foldl_cons, ih]
    have hspec : shortestFirstSpec (acc :: b :: t) =
        if acc.length ≤ (shortestFirstSpec (b :: t)).length then acc
        else shortestFirstSpec (b :: t) := by
      simp [shortestFirstSpec]
    by_cases hab : acc.length > b.length
    · rw [if_pos hab, hspec]
      have hle := shortestFirstSpec_cons_len_le b t
      rw [if_neg (by omega)]
    · rw [if_neg hab, hspec]
      cases t with
      | nil =>
        have hle : acc.length ≤ b.length := Nat.le_of_not_lt hab
        simp [shortestFirstSpec, hle]
      | cons c t' =>
        have hspec2 : shortestFirstSpec (b :: c :: t') =
            if b.length ≤ (shortestFirstSpec (c :: t')).length then b
            else shortestFirstSpec (c :: t') := by
          simp [shortestFirstSpec]
        have hspecA : shortestFirstSpec (acc :: c :: t') =
            if acc.length ≤ (shortestFirstSpec (c :: t')).length then acc
            else shortestFirstSpec (c :: t') := by
          simp [shortestFirstSpec]
        rw [hspecA, hspec2]
        by_cases hbt : b.length ≤ (shortestFirstSpec (c :: t')).length
        · rw [if_pos hbt, if_pos (by omega), if_pos (by omega)]
        · rw [if_neg hbt]

theorem get_shortest_eq_spec (l : List String) :
    get_shortest l = shortestFirstSpec l := by
  cases l with
  | nil => rfl
  | cons a t => exact foldl_shortest_eq t a

/-- C1: a setup or teardown request made while either in-progress flag
is set returns false immediately, leaves the whole adapter state
unchanged, and emits no event and no call. -/
theorem setup_teardown_guard_rejects (env : Env) (s : AdapterState)
    (h : s.setupInProgress = true ∨ s.teardownInProgress = true) :
    setup env s = { ret := false, state := s, events := [], calls := [] } ∧
    teardown env s = { ret := false, state := s, events := [], calls := [] } := by
  rcases h with h | h <;> simp [setup, teardown, h]

theorem setup_teardown_guard_rejects_witness :
    setup baseEnv { idleState with setupInProgress := true } =
      { ret := false, state := { idleState with setupInProgress := true },
        events := [], calls := [] } ∧
    teardown baseEnv { idleState with teardownInProgress := true } =
      { ret := false, state := { idleState with teardownInProgress := true },
        events := [], calls := [] } :=
  ⟨(setup_teardown_guard_rejects baseEnv _ (Or.inl rfl)).1,
   (setup_teardown_guard_rejects baseEnv _ (Or.inr rfl)).2⟩

/-- C3: `checkAccessibility` emits `accessibilityChanged` exactly when
the recomputed accessibility differs from the cached value (and updates
the cache); over any sequence of device-change notifications the events
are exactly the transitions of the cached value. -/
theorem checkAccessibility_edge_triggered :
    (∀ (env : Env) (s : AdapterState),
      (checkAccessibility env s).2 =
        (if s.isAccessibleCache != isAccessible env then
          [Event.accessibilityChanged (isAccessible env) env.udi] else []) ∧
      (checkAccessibility env s).1.isAccessibleCache = isAccessible env) ∧
    (∀ (envs : List Env) (s : AdapterState),
      (runNotifications envs s).2 =
        accessibilityEvents s.isAccessibleCache
          (envs.map (fun e => (isAccessible e, e.udi)))) := by
  have hstep : ∀ (env : Env) (s : AdapterState),
      (checkAccessibility env s).2 =
        (if s.isAccessibleCache != isAccessible env then
          [Event.accessibilityChanged (isAccessible env) env.udi] else []) ∧
      (checkAccessibility env s).1.isAccessibleCache = isAccessible env := by
    intro env s
    by_cases h : (s.isAccessibleCache != isAccessible env) = true
    · simp [checkAccessibility, updateCache, h]
    · simp [checkAccessibility, updateCache, h]
  refine ⟨hstep, ?_⟩
  intro envs
  induction envs with
  | nil => intro s; simp [runNotifications, accessibilityEvents]
  | cons e rest ih =>
    intro s
    have h1 := (hstep e s).1
    have h2 := (hstep e s).2
    simp only [runNotifications, List.map_cons, accessibilityEvents]
    rw [h1, ih, h2]

/-- C2 counterexample: with an encrypted container, no cleartext
sibling and a failing prompt-service call, a setup request from idle
leaves the setup-in-progress flag set and emits no user-cancellation
completion, contradicting the claim for the prompt-failure half. -/
theorem prompt_failure_counterexample :
    ¬ ((setup cryptNoPromptEnv idleState).state.setupInProgress = false ∧
       Event.actionDone "setup" (some SolidError.userCanceled) ∈
         (setup cryptNoPromptEnv idleState).events) := by
  decide

/-- C2 (amended): an empty passphrase reply clears the setup flag and
reports `UserCanceled` with no storage-service call, while a failure of
the prompt-service call makes `setup` return false with no unlock or
mount call and no completion event, leaving the setup-in-progress flag
set. -/
theorem passphrase_cancel_and_prompt_failure (env : Env) (s : AdapterState) :
    (s.passphraseRequested = true →
      passphraseReply env s "" =
        ({ s with passphraseRequested := false, setupInProgress := false },
          [Event.actionDone "setup" (some SolidError.userCanceled)], [])) ∧
    (s.setupInProgress = false → s.teardownInProgress = false →
      env.isEncryptedContainer = true → env.clearTextPath = "" →
      env.promptOk = false →
      setup env s =
        { ret := false
          state := { s with setupInProgress := true, passphraseRequested := false }
          events := [Event.actionRequested "setup"]
          calls := [DBusCall.showPassphraseDialog env.udi] }) := by
  have hE : ("" : String).isEmpty = true := by decide
  constructor
  · intro h
    simp [passphraseReply, h, hE]
  · intro h1 h2 h3 h4 h5
    simp [setup, requestPassphrase, h1, h2, h3, h4, h5, hE]

theorem passphrase_cancel_and_prompt_failure_witness :
    passphraseReply baseEnv { idleState with setupInProgress := true, passphraseRequested := true } "" =
      (idleState, [Event.actionDone "setup" (some SolidError.userCanceled)], []) ∧
    setup cryptNoPromptEnv idleState =
      { ret := false
        state := { idleState with setupInProgress := true }
        events := [Event.actionRequested "setup"]
        calls := [DBusCall.showPassphraseDialog baseEnv.udi] } :=
  ⟨(passphrase_cancel_and_prompt_failure baseEnv _).1 rfl,
   (passphrase_cancel_and_prompt_failure cryptNoPromptEnv idleState).2 rfl rfl rfl rfl rfl⟩

/-- C4 counterexample: for the mount points named by the claim the code
returns the first-seen path `"/media/foo/bar"` (both candidates have
length 14), not `"/run/media/foo"`. -/
theorem filePath_example_counterexample :
    filePath twoMountEnv = "/media/foo/bar" ∧
    ¬ filePath twoMountEnv = "/run/media/foo" := by
  constructor
  · rfl
  · decide

/-- C4 (amended): `get_shortest` (hence `filePath`) returns the
length-shortest mount point with ties broken by first-seen order
(stated as agreement with the spec-side selector and as minimality);
for the two example mount points, which have equal length, it therefore
returns the first-seen `"/media/foo/bar"`. -/
theorem get_shortest_shortest_first :
    (∀ l : List String, get_shortest l = shortestFirstSpec l) ∧
    (∀ (l : List String) (x : String), x ∈ l →
      (get_shortest l).length ≤ x.length) ∧
    filePath twoMountEnv = "/media/foo/bar" := by
  refine ⟨get_shortest_eq_spec, ?_, rfl⟩
  intro l x hx
  rw [get_shortest_eq_spec]
  exact shortestFirstSpec_min l x hx

theorem get_shortest_shortest_first_witness :
    (get_shortest ["/run/media/u/a", "/media/b"]).length ≤
      ("/run/media/u/a" : String).length :=
  get_shortest_shortest_first.2.1 ["/run/media/u/a", "/media/b"]
    "/run/media/u/a" (by simp)

/-- C5: while no operation is in progress, a setup request on an
encrypted container with no discoverable cleartext sibling issues only
the passphrase prompt (no mount), and records whether the prompt call
was accepted; any other device goes straight to the Mount call. -/
theorem setup_passphrase_vs_mount (env : Env) (s : AdapterState)
    (h1 : s.setupInProgress = false) (h2 : s.teardownInProgress = false) :
    ((env.isEncryptedContainer && env.clearTextPath.isEmpty) = true →
      (setup env s).calls = [DBusCall.showPassphraseDialog env.udi] ∧
      (setup env s).state.passphraseRequested = env.promptOk) ∧
    ((env.isEncryptedContainer && env.clearTextPath.isEmpty) = false →
      (setup env s).calls = [DBusCall.mount (mountCallPath env)]) := by
  constructor <;> intro h <;>
    simp [setup, requestPassphrase, mount, h1, h2, h]

theorem setup_passphrase_vs_mount_witness :
    (setup cryptEnv idleState).calls =
      [DBusCall.showPassphraseDialog cryptEnv.udi] ∧
    (setup baseEnv idleState).calls = [DBusCall.mount (mountCallPath baseEnv)] :=
  ⟨((setup_passphrase_vs_mount cryptEnv idleState rfl rfl).1 (by decide)).1,
   (setup_passphrase_vs_mount baseEnv idleState rfl rfl).2 (by decide)⟩

/-- C8: the parent-drive guard of the eject/power-off branch,
`!drivePath.isEmpty() || drivePath != "/"`, is true for every string,
so the empty drive path is never filtered out by it. -/
theorem driveGuard_always_true (drivePath : String) :
    driveGuard drivePath = true := by
  unfold driveGuard
  rw [Bool.or_eq_true]
  by_cases h : drivePath = "/"
  · subst h
    left
    decide
  · right
    exact bne_iff_ne.mpr h

/-- C10: an empty mount-point list on the relevant device makes
`filePath` return the empty string, as does an encrypted container
whose cleartext path is empty or `"/"`. -/
theorem filePath_empty_cases (env : Env) :
    (isLuksDevice env = false → env.mountPoints = [] → filePath env = "") ∧
    (isLuksDevice env = true →
      (env.clearTextPath.isEmpty || env.clearTextPath == "/") = true →
      filePath env = "") ∧
    (isLuksDevice env = true →
      (env.clearTextPath.isEmpty || env.clearTextPath == "/") = false →
      env.holderMountPoints = [] → filePath env = "") := by
  refine ⟨?_, ?_, ?_⟩
  · intro h1 h2
    simp [filePath, get_shortest, h1, h2]
  · intro h1 h2
    simp [filePath, h1, h2]
  · intro h1 h2 h3
    simp [filePath, get_shortest, h1, h2, h3]

theorem filePath_empty_cases_witness :
    filePath noMountEnv = "" ∧
    filePath cryptEnv = "" ∧
    filePath cryptUnlockedEnv = "" :=
  ⟨(filePath_empty_cases noMountEnv).1 rfl rfl,
   (filePath_empty_cases cryptEnv).2.1 rfl (by decide),
   (filePath_empty_cases cryptUnlockedEnv).2.2 rfl (by decide) rfl⟩

end UDisks2

namespace UPower

/-- C6: the battery-capability query answers true exactly for the
kinds battery, UPS, mouse, keyboard, PDA, phone and gaming-input,
false for line-power, monitor, media-player, tablet and computer, and
for the unknown kind answers true exactly when the native path starts
with the Bluez object-path prefix. -/
theorem queryBattery_classification (d : UPowerDeviceProps) (k : UpDeviceKind)
    (h : d.typeProp = k.toNat) :
    queryDeviceInterface d IfaceType.battery = batterySpecAnswer k d.nativePath := by
  cases k <;> simp [queryDeviceInterface, batterySpecAnswer, UpDeviceKind.toNat, h]

theorem queryBattery_classification_witness :
    queryDeviceInterface { typeProp := 0, nativePath := "/org/bluez/hci0/dev_00" }
        IfaceType.battery =
      batterySpecAnswer UpDeviceKind.unknown "/org/bluez/hci0/dev_00" :=
  queryBattery_classification
    { typeProp := 0, nativePath := "/org/bluez/hci0/dev_00" }
    UpDeviceKind.unknown rfl

/-- C7: on the resume notification (`PrepareForSleep(false)`) exactly
one Refresh call is issued; when it is accepted the cache is cleared
and exactly one `changed` event fires, and when it is rejected the
cache and event stream are untouched. -/
theorem login1Resuming_resume (bus : UPowerBus) (s : UPowerState) :
    (login1Resuming bus s false).2.2 = [UCall.refresh] ∧
    (bus.refreshOk = true →
      login1Resuming bus s false =
        ({ cache := [] }, [UEvent.changed], [UCall.refresh])) ∧
    (bus.refreshOk = false →
      login1Resuming bus s false = (s, [], [UCall.refresh])) := by
  refine ⟨?_, ?_, ?_⟩
  · by_cases h : bus.refreshOk <;> simp [login1Resuming, slotChanged, h]
  · intro h
    simp [login1Resuming, slotChanged, h]
  · intro h
    simp [login1Resuming, h]

theorem login1Resuming_resume_witness :
    login1Resuming busOk { cache := [("Type", some (UVal.n 2))] } false =
      ({ cache := [] }, [UEvent.changed], [UCall.refresh]) ∧
    login1Resuming busNoRefresh { cache := [] } false =
      ({ cache := [] }, [], [UCall.refresh]) :=
  ⟨(login1Resuming_resume busOk { cache := [("Type", some (UVal.n 2))] }).2.1 rfl,
   (login1Resuming_resume busNoRefresh { cache := [] }).2.2 rfl⟩

/-- C9: after `checkCache` — hence after any `prop` or
`propertyExists` call — the cache holds an entry for the key (a null
variant is stored when the remote lookup fails), so `propertyExists`
always answers true. -/
theorem propertyExists_always_true (bus : UPowerBus) (s : UPowerState)
    (key : String) :
    cacheContains (checkCache bus s key).cache key = true ∧
    (propertyExists bus s key).2 = true ∧
    cacheContains (prop bus s key).1.cache key = true := by
  have happ : ∀ (c : List (String × QVar)) (v : QVar),
      cacheContains (c ++ [(key, v)]) key = true := by
    intro c v
    simp [cacheContains, List.any_append]
  have hmain : cacheContains (checkCache bus s key).cache key = true := by
    simp only [checkCache]
    set s1 := if s.cache.isEmpty then allProperties bus else s
    by_cases h : cacheContains s1.cache key
    · rw [if_pos h]
      exact h
    · rw [if_neg h]
      cases hr : bus.propertyReply key
      · exact happ s1.cache none
      · next v => exact happ s1.cache (some v)
  refine ⟨hmain, ?_, ?_⟩
  · simpa [propertyExists] using hmain
  · simpa [prop] using hmain

end UPower
